import Mathlib

/-!
Verification development for the MAVEN emotion-detection service.

The Python sources are shallowly embedded: floating-point numbers are
modelled as rationals (`ℚ`), numpy arrays as `List ℚ`, Python dicts as
association lists, raised-and-caught exceptions as `Except`/`Option`
values, and external library calls (librosa, DeepFace, the pickled SVM
model) as explicit parameters, since only their call sites live in this
repository.  Python's `round(x, k)` is modelled by `roundTo k`; Python
rounds ties to even while `round : ℚ → ℤ` rounds ties up, but no property
below depends on tie behaviour.
-/

/-- Python `round(x, k)`: round to `k` decimal places
(`audio_emotion_detector.py` line 98 uses `k = 4`,
`app.py` line 107 uses `k = 2`). -/
def roundTo (k : Nat) (x : ℚ) : ℚ :=
  ((round (x * (10 : ℚ) ^ k) : ℤ) : ℚ) / (10 : ℚ) ^ k

/-- `np.max` over a 1-d array: `none` models the `ValueError` numpy raises
on an empty array. -/
def npMax : List ℚ → Option ℚ
  | [] => none
  | x :: xs => some (xs.foldl max x)

/-! ## audio_emotion_detector.py -/

/-- Outcome of the model pipeline inside `predict_from_audio` up to
`self.model.predict_proba` (feature extraction, scaling, the SVM calls):
the predicted label, the posterior row `probabilities`, and
`self.model.classes_`.  `Except.error` models any exception raised by
those external calls. -/
structure ModelOut where
  prediction : String
  probabilities : List ℚ
  classes : List String
deriving DecidableEq

/-- Result dict of the audio detector.  `probabilities := none` models a
dict without the `'probabilities'` key (the `predict_from_file` error
branch omits it). -/
structure PredictResult where
  emotion : String
  confidence : ℚ
  probabilities : Option (List (String × ℚ))
  error : Option String
deriving DecidableEq

/-- The `except` branch of `predict_from_audio`
(`audio_emotion_detector.py` lines 104-111). -/
def degradedResult (msg : String) : PredictResult :=
  { emotion := "neutral", confidence := 0, probabilities := some [], error := some msg }

/-- `AudioEmotionDetector.predict_from_audio` after the model pipeline
(lines 72-102), plus the `except` branch (lines 104-111).  `np.max` of an
empty posterior row raises, which the same `except` catches. -/
def predict_from_audio (r : Except String ModelOut) : PredictResult :=
  match r with
  | .error e => degradedResult e
  | .ok out =>
    match npMax out.probabilities with
    | none => degradedResult "zero-size array to reduction operation maximum which has no identity"
    | some confidence0 =>
      let pc : String × ℚ :=
        if confidence0 < 15 / 100 then ("neutral", 15 / 100)
        else (out.prediction, confidence0)
      { emotion := pc.1
        confidence := roundTo 4 pc.2
        probabilities := some (out.classes.zip out.probabilities)
        error := none }

/-- The model pipeline abstracted as a function of the sample buffer and
rate: everything `predict_from_audio` runs between its `try` and the
posterior row (feature extraction, `scaler.transform`, `model.predict`,
`model.predict_proba`). -/
structure Detector where
  run : List ℚ → ℚ → Except String ModelOut

/-- `predict_from_audio` as called with a concrete sample array.  On an
empty array, `np.min(audio_data)` in the logging statement (line 59)
raises before any model work; the `except` turns that into the degraded
result. -/
def predictFromAudioSamples (d : Detector) (samples : List ℚ) (sr : ℚ) : PredictResult :=
  if samples = [] then
    degradedResult "zero-size array to reduction operation minimum which has no identity"
  else predict_from_audio (d.run samples sr)

/-- `AudioEmotionDetector.predict_from_file` (lines 113-156): `decoded`
abstracts the librosa-load-then-scipy-fallback chain as its overall
outcome (samples and rate, or the surfaced exception message).  The
error branch returns a dict without a `'probabilities'` key. -/
def predict_from_file (d : Detector) (decoded : Except String (List ℚ × ℚ)) : PredictResult :=
  match decoded with
  | .ok (samples, sr) => predictFromAudioSamples d samples sr
  | .error e => { emotion := "neutral", confidence := 0, probabilities := none, error := some e }

/-! ## audio_feature_extraction.py -/

/-- The librosa calls made by `extract_features_from_audio`, abstracted as
opaque functions of the (trimmed, normalised) signal: this repository only
calls them.  `mfcc y sr n` and `chroma_stft y sr` return coefficient-major
matrices (one row per coefficient, one column per short-time frame);
`zero_crossing_rate y` returns the per-frame rates. -/
structure AudioLib where
  trim : List ℚ → List ℚ
  normalize : List ℚ → List ℚ
  mfcc : List ℚ → ℚ → Nat → List (List ℚ)
  chroma_stft : List ℚ → ℚ → List (List ℚ)
  zero_crossing_rate : List ℚ → List ℚ

/-- `np.mean` of a 1-d array. -/
def listMean (l : List ℚ) : ℚ := l.sum / l.length

/-- `np.mean(m.T, axis=0)`: the mean over time of each coefficient row. -/
def rowMeans (m : List (List ℚ)) : List ℚ := m.map listMean

/-- `extract_features_from_audio` (`audio_feature_extraction.py` lines
31-47): trim, normalise, then `np.hstack` of the 13 cepstral means, the
12 chroma means and the scalar zero-crossing-rate mean. -/
def extract_features_from_audio (lib : AudioLib) (y0 : List ℚ) (sr : ℚ) : List ℚ :=
  let y := lib.normalize (lib.trim y0)
  let mfcc_mean := rowMeans (lib.mfcc y sr 13)
  let chroma_mean := rowMeans (lib.chroma_stft y sr)
  let zcr := listMean (lib.zero_crossing_rate y)
  mfcc_mean ++ chroma_mean ++ [zcr]

/-! ## app.py — the video frame loop (`get_frame`) -/

/-- One detection as reported by `DeepFace.extract_faces`: the
`facial_area` fields after the `int(...)` conversions
(`app.py` lines 70-73). -/
structure FaceData where
  x : Int
  y : Int
  w : Int
  h : Int
deriving DecidableEq

/-- One entry of `current_emotions` (`app.py` lines 105-109). -/
structure Obs where
  emotion : String
  confidence : ℚ
  coords : Int × Int × Int × Int
deriving DecidableEq

/-- The shared registry `current_emotions`, as an insertion-ordered dict. -/
abbrev Registry := List (Nat × Obs)

/-- Python dict assignment `d[k] = v`: overwrite in place, else append. -/
def putReg (r : Registry) (k : Nat) (v : Obs) : Registry :=
  match r with
  | [] => [(k, v)]
  | (k', v') :: rest =>
    if k' = k then (k, v) :: rest else (k', v') :: putReg rest k v

/-- Length of the Python slice `a[i:j]` over an axis of size `n`
(negative indices count from the end, out-of-range indices clamp). -/
def pySliceLen (n : Nat) (i j : Int) : Nat :=
  let lo : Int := if i < 0 then max 0 ((n : Int) + i) else min i n
  let hi : Int := if j < 0 then max 0 ((n : Int) + j) else min j n
  (hi - lo).toNat

/-- The external calls and ambient data of one `get_frame` iteration:
frame dimensions, the `DeepFace.extract_faces` outcome (`Except.error`
models a raised exception), and the per-crop `DeepFace.analyze` outcome
(dominant emotion and its score, or a raised exception). -/
structure FrameEnv where
  frameH : Nat
  frameW : Nat
  faces : Except String (List FaceData)
  analyze : Nat → FaceData → Except String (String × ℚ)

/-- `frame[y:y2, x:x2].size` for the crop of one detection, with 3 colour
channels (`app.py` line 79; `size` is 0 iff either slice is empty). -/
def cropSize (env : FrameEnv) (fd : FaceData) : Nat :=
  pySliceLen env.frameH fd.y (fd.y + fd.h) * pySliceLen env.frameW fd.x (fd.x + fd.w) * 3

/-- Events of one frame iteration, in program order. -/
inductive Ev
  | localize
  | resetReg
  | put (idx : Nat)
  | encode
deriving DecidableEq

/-- The registry entry recorded for detection `idx` (`app.py` lines
84-109): the analysis result, or `unknown`/`0` when `DeepFace.analyze`
raises; confidence is stored as `round(confidence, 2)`. -/
def obsFor (env : FrameEnv) (idx : Nat) (fd : FaceData) : Obs :=
  let lc : String × ℚ :=
    match env.analyze idx fd with
    | .ok (label, conf) => (label, conf)
    | .error _ => ("unknown", 0)
  { emotion := lc.1
    confidence := roundTo 2 lc.2
    coords := (fd.x, fd.y, fd.x + fd.w, fd.y + fd.h) }

/-- The `for idx, face_data in enumerate(faces)` loop body (`app.py`
lines 68-118), folded over the remaining detections: returns the updated
registry, the emitted events and the list of annotated (drawn) indices.
A zero-size crop is skipped with `continue` before any registry write. -/
def processFaces (env : FrameEnv) (i : Nat) (fds : List FaceData) (reg : Registry) :
    Registry × List Ev × List Nat :=
  match fds with
  | [] => (reg, [], [])
  | fd :: rest =>
    if cropSize env fd = 0 then processFaces env (i + 1) rest reg
    else
      let reg' := putReg reg i (obsFor env i fd)
      let r := processFaces env (i + 1) rest reg'
      (r.1, Ev.put i :: r.2.1, i :: r.2.2)

/-- Result of one `get_frame` loop iteration. -/
structure FrameResult where
  registry : Registry
  trace : List Ev
  drawn : List Nat
  emitted : Bool
deriving DecidableEq

/-- One iteration of the `while camera_active` loop in `get_frame`
(`app.py` lines 57-129): `extract_faces`, then `current_emotions.clear()`,
then the per-detection loop; an exception from `extract_faces` is caught
by the outer `except` (line 120) leaving the registry untouched and the
frame unannotated.  The JPEG encode and yield (lines 124-129) run in
either case. -/
def processFrame (env : FrameEnv) (reg : Registry) : FrameResult :=
  match env.faces with
  | .error _ =>
    { registry := reg, trace := [Ev.localize, Ev.encode], drawn := [], emitted := true }
  | .ok fds =>
    let r := processFaces env 0 fds []
    { registry := r.1
      trace := Ev.localize :: Ev.resetReg :: r.2.1 ++ [Ev.encode]
      drawn := r.2.2
      emitted := true }

/-- The `/emotions` route `get_emotions` (`app.py` lines 199-204): a
locked copy of `current_emotions`. -/
def get_emotions (reg : Registry) : Registry := reg

/-! ## app.py — audio endpoints -/

/-- A JSON response: HTTP status plus the body keys the audio endpoints
use (`none` models an absent key). -/
structure Response where
  status : Nat
  emotion : Option String
  confidence : Option ℚ
  probabilities : Option (List (String × ℚ))
  error : Option String
deriving DecidableEq

/-- `jsonify(result)` with status 200 for a detector result dict. -/
def resultToResponse (r : PredictResult) : Response :=
  { status := 200, emotion := some r.emotion, confidence := some r.confidence
    probabilities := r.probabilities, error := r.error }

/-- A body holding only an `'error'` key. -/
def errorOnly (status : Nat) (msg : String) : Response :=
  { status := status, emotion := none, confidence := none
    probabilities := none, error := some msg }

/-- Work performed by an audio endpoint before or instead of inference. -/
inductive AStep
  | record
  | saveTemp
  | saveDebug
  | infer
deriving DecidableEq

/-- `/audio/record` (`app.py` lines 211-236), given the detector (or
`none` when `get_detector()` failed) and the samples `sd.rec` captured:
the microphone recording happens before the detector check. -/
def record_audio (det : Option Detector) (recorded : List ℚ) (sr : ℚ) :
    List AStep × Response :=
  match det with
  | none => ([AStep.record], errorOnly 500 "Audio detector not initialized")
  | some d =>
    ([AStep.record, AStep.infer], resultToResponse (predictFromAudioSamples d recorded sr))

/-- `/audio/predict_file` (`app.py` lines 246-301): request validation,
then the temp save and debug copy, then the detector check, then
`predict_from_file`. -/
def predict_audio_file (det : Option Detector) (fileProvided : Bool)
    (filenameEmpty : Bool) (decoded : Except String (List ℚ × ℚ)) :
    List AStep × Response :=
  if !fileProvided then ([], errorOnly 400 "No file provided")
  else if filenameEmpty then ([], errorOnly 400 "No file selected")
  else
    match det with
    | none => ([AStep.saveTemp, AStep.saveDebug], errorOnly 500 "Audio detector not initialized")
    | some d =>
      ([AStep.saveTemp, AStep.saveDebug, AStep.infer],
        resultToResponse (predict_from_file d decoded))

/-- `/audio/predict_numpy` (`app.py` lines 312-331): the empty-array check
precedes the detector check. -/
def predict_audio_numpy (det : Option Detector) (audio : List ℚ) (sr : ℚ) :
    List AStep × Response :=
  if audio.length = 0 then ([], errorOnly 400 "No audio data provided")
  else
    match det with
    | none => ([], errorOnly 500 "Audio detector not initialized")
    | some d => ([AStep.infer], resultToResponse (predictFromAudioSamples d audio sr))

/-! ## Concrete fixtures used to evaluate the model on closed inputs -/

/-- A librosa instance for closed evaluations: identity trim/normalise,
constant coefficient matrices of the documented shapes. -/
def libConst : AudioLib :=
  { trim := id
    normalize := id
    mfcc := fun _ _ n => List.replicate n [1]
    chroma_stft := fun _ _ => List.replicate 12 [1]
    zero_crossing_rate := fun _ => [0] }

/-- A detector whose model pipeline always raises. -/
def detFail : Detector := { run := fun _ _ => .error "model failure" }

/-- A detector whose pipeline returns a fixed posterior row. -/
def detConst : Detector :=
  { run := fun _ _ => .ok { prediction := "happy", probabilities := [1/2, 1/2], classes := ["happy", "sad"] } }

/-- A frame with one detected face and a classifier score of 50
(DeepFace emotion scores are percentages). -/
def envOneFace : FrameEnv :=
  { frameH := 10, frameW := 10
    faces := .ok [{ x := 0, y := 0, w := 5, h := 5 }]
    analyze := fun _ _ => .ok ("happy", 50) }

/-- A frame whose face localizer raises for the whole frame. -/
def envLocFail : FrameEnv :=
  { frameH := 10, frameW := 10
    faces := .error "localizer failure"
    analyze := fun _ _ => .ok ("happy", 50) }

/-- A frame with two detections where the classifier raises on the first
crop only. -/
def envOneBadCrop : FrameEnv :=
  { frameH := 10, frameW := 10
    faces := .ok [{ x := 0, y := 0, w := 5, h := 5 }, { x := 1, y := 1, w := 4, h := 4 }]
    analyze := fun i _ => if i = 0 then .error "DeepFace error" else .ok ("happy", 50) }

/-- A frame with one degenerate (zero-width) detection box and one
ordinary detection. -/
def envZeroArea : FrameEnv :=
  { frameH := 10, frameW := 10
    faces := .ok [{ x := 5, y := 5, w := 0, h := 3 }, { x := 1, y := 1, w := 4, h := 4 }]
    analyze := fun _ _ => .ok ("happy", 50) }

/-! ## Helper lemmas -/

lemma roundTo_zero (k : Nat) : roundTo k (0 : ℚ) = 0 := by
  simp [roundTo]

lemma roundTo_nonneg (k : Nat) (x : ℚ) (hx : 0 ≤ x) : 0 ≤ roundTo k x := by
  have hp : (0 : ℚ) < (10 : ℚ) ^ k := by positivity
  have h1 : (0 : ℤ) ≤ round (x * (10 : ℚ) ^ k) := by
    have : (0 : ℚ) ≤ x * (10 : ℚ) ^ k := by positivity
    calc (0 : ℤ) = round (0 : ℚ) := (round_zero).symm
      _ ≤ round (x * (10 : ℚ) ^ k) := by
          rw [round_eq, round_eq]
          exact Int.floor_le_floor (by linarith)
  have : (0 : ℚ) ≤ ((round (x * (10 : ℚ) ^ k) : ℤ) : ℚ) := by exact_mod_cast h1
  exact div_nonneg this hp.le

lemma roundTo_le_intCast (k : Nat) (x : ℚ) (n : ℤ) (hx : x ≤ (n : ℚ)) :
    roundTo k x ≤ (n : ℚ) := by
  have hp : (0 : ℚ) < (10 : ℚ) ^ k := by positivity
  have hmul : x * (10 : ℚ) ^ k ≤ ((n * 10 ^ k : ℤ) : ℚ) := by
    push_cast
    exact mul_le_mul_of_nonneg_right hx hp.le
  have h1 : round (x * (10 : ℚ) ^ k) ≤ n * 10 ^ k := by
    calc round (x * (10 : ℚ) ^ k) ≤ round (((n * 10 ^ k : ℤ) : ℚ)) := by
          rw [round_eq, round_eq]
          exact Int.floor_le_floor (by linarith)
      _ = n * 10 ^ k := round_intCast _
  rw [roundTo, div_le_iff₀ hp]
  calc ((round (x * (10 : ℚ) ^ k) : ℤ) : ℚ) ≤ ((n * 10 ^ k : ℤ) : ℚ) := by exact_mod_cast h1
    _ = (n : ℚ) * (10 : ℚ) ^ k := by push_cast; ring

lemma foldl_max_le_iff (xs : List ℚ) (x b : ℚ) :
    xs.foldl max x ≤ b ↔ x ≤ b ∧ ∀ p ∈ xs, p ≤ b := by
  induction xs generalizing x with
  | nil => simp
  | cons y ys ih =>
    simp only [List.foldl_cons, ih, max_le_iff, List.mem_cons]
    constructor
    · rintro ⟨⟨hx, hy⟩, hs⟩
      exact ⟨hx, fun p hp => hp.elim (fun h => h ▸ hy) (hs p)⟩
    · rintro ⟨hx, hs⟩
      exact ⟨⟨hx, hs y (Or.inl rfl)⟩, fun p hp => hs p (Or.inr hp)⟩

lemma foldl_max_mem (xs : List ℚ) (x : ℚ) : xs.foldl max x = x ∨ xs.foldl max x ∈ xs := by
  induction xs generalizing x with
  | nil => simp
  | cons y ys ih =>
    simp only [List.foldl_cons, List.mem_cons]
    rcases ih (max x y) with h | h
    · rcases max_choice x y with hm | hm
      · exact Or.inl (h.trans hm)
      · exact Or.inr (Or.inl (h.trans hm))
    · exact Or.inr (Or.inr h)

lemma npMax_eq_some (l : List ℚ) (hl : l ≠ []) : ∃ m, npMax l = some m := by
  cases l with
  | nil => exact absurd rfl hl
  | cons x xs => exact ⟨xs.foldl max x, rfl⟩

lemma npMax_mem (l : List ℚ) (m : ℚ) (h : npMax l = some m) : m ∈ l := by
  cases l with
  | nil => simp [npMax] at h
  | cons x xs =>
    simp only [npMax, Option.some.injEq] at h
    subst h
    rcases foldl_max_mem xs x with h' | h'
    · rw [h']; exact List.mem_cons_self x xs
    · exact List.mem_cons_of_mem x h'

lemma le_npMax (l : List ℚ) (m p : ℚ) (h : npMax l = some m) (hp : p ∈ l) : p ≤ m := by
  cases l with
  | nil => simp [npMax] at h
  | cons x xs =>
    simp only [npMax, Option.some.injEq] at h
    subst h
    have hle : xs.foldl max x ≤ xs.foldl max x := le_refl _
    rw [foldl_max_le_iff] at hle
    rcases List.mem_cons.mp hp with h' | h'
    · rw [h']; exact hle.1
    · exact hle.2 p h'

lemma lookup_putReg (r : Registry) (k' : Nat) (v : Obs) (k : Nat) :
    List.lookup k (putReg r k' v) = if k = k' then some v else List.lookup k r := by
  induction r with
  | nil =>
    by_cases h : k = k'
    · subst h; simp [putReg, List.lookup]
    · have hb : (k == k') = false := by simpa using h
      simp [putReg, List.lookup, hb, h]
  | cons p rest ih =>
    obtain ⟨a, b⟩ := p
    by_cases ha : a = k'
    · subst ha
      by_cases h : k = a
      · subst h; simp [putReg, List.lookup]
      · have hb : (k == a) = false := by simpa using h
        simp [putReg, List.lookup, hb, h]
    · by_cases h : k = a
      · subst h
        have hb : (k == k) = true := by simp
        simp [putReg, List.lookup, ha, hb, Ne.symm ha]
      · have hb : (k == a) = false := by simpa using h
        simp [putReg, List.lookup, ha, hb, h, ih]

lemma processFaces_lookup_lt (env : FrameEnv) (fds : List FaceData) :
    ∀ (i : Nat) (reg : Registry) (k : Nat), k < i →
      List.lookup k (processFaces env i fds reg).1 = List.lookup k reg := by
  induction fds with
  | nil => intro i reg k _; rfl
  | cons fd rest ih =>
    intro i reg k hk
    by_cases hcrop : cropSize env fd = 0
    · simp only [processFaces, if_pos hcrop]
      exact ih (i + 1) reg k (Nat.lt_succ_of_lt hk)
    · simp only [processFaces, if_neg hcrop]
      rw [ih (i + 1) _ k (Nat.lt_succ_of_lt hk), lookup_putReg,
        if_neg (Nat.ne_of_lt hk)]

lemma processFaces_lookup (env : FrameEnv) (fds : List FaceData) :
    ∀ (i : Nat) (reg : Registry) (j : Nat) (hj : j < fds.length),
      List.lookup (i + j) (processFaces env i fds reg).1 =
        if cropSize env (fds.get ⟨j, hj⟩) = 0 then List.lookup (i + j) reg
        else some (obsFor env (i + j) (fds.get ⟨j, hj⟩)) := by
  induction fds with
  | nil => intro i reg j hj; exact absurd hj (Nat.not_lt_zero j)
  | cons fd rest ih =>
    intro i reg j hj
    cases j with
    | zero =>
      simp only [Nat.add_zero, List.get]
      by_cases hcrop : cropSize env fd = 0
      · simp only [processFaces, if_pos hcrop]
        rw [processFaces_lookup_lt env rest (i + 1) reg i (Nat.lt_succ_self i)]
      · simp only [processFaces, if_neg hcrop]
        rw [processFaces_lookup_lt env rest (i + 1) _ i (Nat.lt_succ_self i),
          lookup_putReg, if_pos rfl]
    | succ j' =>
      have hj' : j' < rest.length := Nat.lt_of_succ_lt_succ hj
      have hidx : i + (j' + 1) = (i + 1) + j' := by omega
      simp only [List.get]
      by_cases hcrop : cropSize env fd = 0
      · simp only [processFaces, if_pos hcrop]
        rw [hidx, ih (i + 1) reg j' hj']
      · simp only [processFaces, if_neg hcrop]
        rw [hidx, ih (i + 1) _ j' hj']
        by_cases hc' : cropSize env (rest.get ⟨j', hj'⟩) = 0
        · rw [if_pos hc', if_pos hc', lookup_putReg, if_neg (by omega)]
        · rw [if_neg hc', if_neg hc']

lemma processFaces_events (env : FrameEnv) (fds : List FaceData) :
    ∀ (i : Nat) (reg : Registry) (e : Ev),
      e ∈ (processFaces env i fds reg).2.1 → ∃ k, e = Ev.put k := by
  induction fds with
  | nil => intro i reg e he; simp [processFaces] at he
  | cons fd rest ih =>
    intro i reg e he
    by_cases hcrop : cropSize env fd = 0
    · simp only [processFaces, if_pos hcrop] at he
      exact ih (i + 1) reg e he
    · simp only [processFaces, if_neg hcrop, List.mem_cons] at he
      rcases he with h | h
      · exact ⟨i, h⟩
      · exact ih (i + 1) _ e h

lemma mem_putReg (r : Registry) (k : Nat) (v : Obs) (p : Nat × Obs)
    (hp : p ∈ putReg r k v) : p = (k, v) ∨ p ∈ r := by
  induction r with
  | nil => simpa [putReg] using hp
  | cons q rest ih =>
    obtain ⟨a, b⟩ := q
    have hunf : putReg ((a, b) :: rest) k v =
        if a = k then (k, v) :: rest else (a, b) :: putReg rest k v := rfl
    by_cases ha : a = k
    · rw [hunf, if_pos ha] at hp
      rcases List.mem_cons.mp hp with h | h
      · exact Or.inl h
      · exact Or.inr (List.mem_cons_of_mem _ h)
    · rw [hunf, if_neg ha] at hp
      rcases List.mem_cons.mp hp with h | h
      · exact Or.inr (h ▸ List.mem_cons_self _ _)
      · rcases ih h with h' | h'
        · exact Or.inl h'
        · exact Or.inr (List.mem_cons_of_mem _ h')

lemma obsFor_conf_bound (env : FrameEnv) (i : Nat) (fd : FaceData)
    (hana : ∀ (j : Nat) (g : FaceData) (l : String) (c : ℚ),
      env.analyze j g = .ok (l, c) → 0 ≤ c ∧ c ≤ 100) :
    0 ≤ (obsFor env i fd).confidence ∧ (obsFor env i fd).confidence ≤ 100 := by
  have h100 : ((100 : ℤ) : ℚ) = (100 : ℚ) := by norm_num
  unfold obsFor
  cases h : env.analyze i fd with
  | ok lc =>
    obtain ⟨l, c⟩ := lc
    have hb := hana i fd l c h
    refine ⟨roundTo_nonneg 2 c hb.1, ?_⟩
    have := roundTo_le_intCast 2 c 100 (by rw [h100]; exact hb.2)
    rwa [h100] at this
  | error e =>
    refine ⟨roundTo_nonneg 2 0 le_rfl, ?_⟩
    have := roundTo_le_intCast 2 0 100 (by rw [h100]; norm_num)
    rwa [h100] at this

lemma processFaces_conf_bound (env : FrameEnv)
    (hana : ∀ (j : Nat) (g : FaceData) (l : String) (c : ℚ),
      env.analyze j g = .ok (l, c) → 0 ≤ c ∧ c ≤ 100) (fds : List FaceData) :
    ∀ (i : Nat) (reg : Registry),
      (∀ p ∈ reg, 0 ≤ p.2.confidence ∧ p.2.confidence ≤ 100) →
      ∀ p ∈ (processFaces env i fds reg).1, 0 ≤ p.2.confidence ∧ p.2.confidence ≤ 100 := by
  induction fds with
  | nil => intro i reg hreg p hp; exact hreg p hp
  | cons fd rest ih =>
    intro i reg hreg p hp
    by_cases hcrop : cropSize env fd = 0
    · simp only [processFaces, if_pos hcrop] at hp
      exact ih (i + 1) reg hreg p hp
    · simp only [processFaces, if_neg hcrop] at hp
      refine ih (i + 1) _ ?_ p hp
      intro q hq
      rcases mem_putReg reg i (obsFor env i fd) q hq with h | h
      · rw [h]; exact obsFor_conf_bound env i fd hana
      · exact hreg q h

/-! ## Claim theorems -/

/-- C1 (amended): in `predict_from_audio`, when the model pipeline
succeeds, if the maximum posterior is below 0.15 the label is forced to
"neutral" and the confidence to exactly 0.15; otherwise the label is the
model's prediction and the confidence is the maximum posterior rounded to
four decimal places (the code applies `round(confidence, 4)`, so the raw
maximum is generally not returned exactly); in all cases the returned
confidence lies in [0, 1]. -/
theorem C1_confidence_gate (out : ModelOut) (m : ℚ)
    (hmax : npMax out.probabilities = some m)
    (hprob : ∀ p ∈ out.probabilities, 0 ≤ p ∧ p ≤ 1) :
    (m < 15 / 100 →
      (predict_from_audio (.ok out)).emotion = "neutral" ∧
      (predict_from_audio (.ok out)).confidence = 15 / 100) ∧
    (¬ m < 15 / 100 →
      (predict_from_audio (.ok out)).emotion = out.prediction ∧
      (predict_from_audio (.ok out)).confidence = roundTo 4 m) ∧
    0 ≤ (predict_from_audio (.ok out)).confidence ∧
    (predict_from_audio (.ok out)).confidence ≤ 1 := by
  have h1 : ((1 : ℤ) : ℚ) = (1 : ℚ) := by norm_num
  have hround15 : roundTo 4 ((15 : ℚ) / 100) = 15 / 100 := by
    norm_num [roundTo, round_eq]
  have hm := hprob m (npMax_mem out.probabilities m hmax)
  by_cases hlt : m < 15 / 100
  · have he : predict_from_audio (.ok out) =
        { emotion := "neutral", confidence := roundTo 4 (15 / 100)
          probabilities := some (out.classes.zip out.probabilities), error := none } := by
      simp [predict_from_audio, hmax, hlt]
    refine ⟨fun _ => ⟨by rw [he], by rw [he, hround15]⟩, fun h => absurd hlt h, ?_, ?_⟩
    · rw [he, hround15]; norm_num
    · rw [he, hround15]; norm_num
  · have he : predict_from_audio (.ok out) =
        { emotion := out.prediction, confidence := roundTo 4 m
          probabilities := some (out.classes.zip out.probabilities), error := none } := by
      simp [predict_from_audio, hmax, hlt]
    refine ⟨fun h => absurd h hlt, fun _ => ⟨by rw [he], by rw [he]⟩, ?_, ?_⟩
    · rw [he]; exact roundTo_nonneg 4 m hm.1
    · rw [he]
      have := roundTo_le_intCast 4 m 1 (by rw [h1]; exact hm.2)
      rwa [h1] at this

/-- C1, witness: the gate evaluated at the posterior row [1/2, 1/2]. -/
theorem C1_confidence_gate_witness :
    (predict_from_audio (.ok { prediction := "happy", probabilities := [1/2, 1/2], classes := ["happy", "sad"] })).emotion = "happy" ∧
    (predict_from_audio (.ok { prediction := "happy", probabilities := [1/2, 1/2], classes := ["happy", "sad"] })).confidence = roundTo 4 (1/2) ∧
    0 ≤ (predict_from_audio (.ok { prediction := "happy", probabilities := [1/2, 1/2], classes := ["happy", "sad"] })).confidence := by
  have h := C1_confidence_gate
    { prediction := "happy", probabilities := [1/2, 1/2], classes := ["happy", "sad"] }
    (1/2) (by simp [npMax]) (by norm_num)
  exact ⟨(h.2.1 (by norm_num)).1, (h.2.1 (by norm_num)).2, h.2.2.1⟩

/-- C1, counterexample to the claim as stated: with posterior row
[3/7, 4/7] the maximum posterior is 4/7 ≥ 0.15, but the returned
confidence is `round(4/7, 4) = 0.5714`, not the maximum posterior 4/7. -/
theorem C1_counterexample :
    npMax [(3 : ℚ)/7, 4/7] = some (4/7) ∧
    ¬ ((4 : ℚ)/7 < 15 / 100) ∧
    (predict_from_audio (.ok { prediction := "happy", probabilities := [3/7, 4/7], classes := ["sad", "happy"] })).emotion = "happy" ∧
    (predict_from_audio (.ok { prediction := "happy", probabilities := [3/7, 4/7], classes := ["sad", "happy"] })).confidence ≠ 4/7 := by
  have hmax : npMax [(3 : ℚ)/7, 4/7] = some (4/7) := by
    simp [npMax]
    norm_num [max_def]
  have hpred :
      predict_from_audio (.ok { prediction := "happy", probabilities := [3/7, 4/7], classes := ["sad", "happy"] }) =
        { emotion := "happy", confidence := roundTo 4 (4/7)
          probabilities := some (List.zip ["sad", "happy"] [3/7, 4/7]), error := none } := by
    simp only [predict_from_audio, hmax]
    rw [if_neg (by norm_num : ¬ (4 : ℚ)/7 < 15/100)]
  refine ⟨hmax, by norm_num, by rw [hpred], ?_⟩
  rw [hpred]
  show roundTo 4 (4/7) ≠ 4/7
  norm_num [roundTo, round_eq]

/-- C2 (confirmed): for any non-empty input buffer, given librosa's
documented output shapes (13 cepstral rows for `n_mfcc=13`, 12 chroma
rows), `extract_features_from_audio` returns the vector of length exactly
26 obtained by concatenating, in this fixed order, the 13 cepstral means,
the 12 chroma means and the scalar zero-crossing-rate mean.  Values are
rationals in this model, hence finite whenever the library outputs are. -/
theorem C2_feature_vector (lib : AudioLib) (y0 : List ℚ) (sr : ℚ)
    (hne : y0 ≠ [])
    (hm : (lib.mfcc (lib.normalize (lib.trim y0)) sr 13).length = 13)
    (hc : (lib.chroma_stft (lib.normalize (lib.trim y0)) sr).length = 12) :
    (extract_features_from_audio lib y0 sr).length = 26 ∧
    extract_features_from_audio lib y0 sr =
      rowMeans (lib.mfcc (lib.normalize (lib.trim y0)) sr 13) ++
      rowMeans (lib.chroma_stft (lib.normalize (lib.trim y0)) sr) ++
      [listMean (lib.zero_crossing_rate (lib.normalize (lib.trim y0)))] ∧
    (rowMeans (lib.mfcc (lib.normalize (lib.trim y0)) sr 13)).length = 13 ∧
    (rowMeans (lib.chroma_stft (lib.normalize (lib.trim y0)) sr)).length = 12 := by
  refine ⟨?_, rfl, ?_, ?_⟩
  · simp [extract_features_from_audio, rowMeans, hm, hc]
  · simp [rowMeans, hm]
  · simp [rowMeans, hc]

/-- C2, witness: the extractor evaluated on a concrete one-sample buffer
with a constant-matrix librosa instance. -/
theorem C2_feature_vector_witness :
    (extract_features_from_audio libConst [1] 22050).length = 26 := by
  have h := C2_feature_vector libConst [1] 22050 (by simp)
    (by simp [libConst]) (by simp [libConst])
  exact h.1

/-- C3 (amended): in every frame iteration whose localizer call returns,
the registry is cleared exactly once, the clear happening after
`DeepFace.extract_faces` returns but before any detection is processed,
and every registry `put` of that frame happens after the clear. -/
theorem C3_reset_once_before_puts (env : FrameEnv) (reg : Registry)
    (fds : List FaceData) (hf : env.faces = .ok fds) :
    ∃ tail, (processFrame env reg).trace = Ev.localize :: Ev.resetReg :: tail ∧
      Ev.resetReg ∉ tail ∧ Ev.localize ∉ tail ∧
      ∀ e ∈ tail, (∃ k, e = Ev.put k) ∨ e = Ev.encode := by
  refine ⟨(processFaces env 0 fds []).2.1 ++ [Ev.encode], ?_, ?_, ?_, ?_⟩
  · simp [processFrame, hf]
  · intro hmem
    rcases List.mem_append.mp hmem with h | h
    · rcases processFaces_events env fds 0 [] Ev.resetReg h with ⟨k, hk⟩
      exact Ev.noConfusion hk
    · rcases List.mem_singleton.mp h with h
      exact Ev.noConfusion h
  · intro hmem
    rcases List.mem_append.mp hmem with h | h
    · rcases processFaces_events env fds 0 [] Ev.localize h with ⟨k, hk⟩
      exact Ev.noConfusion hk
    · rcases List.mem_singleton.mp h with h
      exact Ev.noConfusion h
  · intro e he
    rcases List.mem_append.mp he with h | h
    · exact Or.inl (processFaces_events env fds 0 [] e h)
    · exact Or.inr (List.mem_singleton.mp h)

/-- C3, witness: the trace of a frame with one detection. -/
theorem C3_reset_once_before_puts_witness :
    ∃ tail, (processFrame envOneFace []).trace = Ev.localize :: Ev.resetReg :: tail ∧
      Ev.resetReg ∉ tail ∧ Ev.localize ∉ tail ∧
      ∀ e ∈ tail, (∃ k, e = Ev.put k) ∨ e = Ev.encode :=
  C3_reset_once_before_puts envOneFace [] [{ x := 0, y := 0, w := 5, h := 5 }] rfl

/-- C3, counterexample to the claim as stated: the claim places the
registry clear before the face-localizer invocation, but in `get_frame`
the clear (line 66) runs after `DeepFace.extract_faces` (line 59)
returns, so in the trace the localize event precedes the reset event. -/
theorem C3_counterexample :
    Ev.localize ∈ (processFrame envOneFace []).trace ∧
    Ev.resetReg ∈ (processFrame envOneFace []).trace ∧
    ¬ (processFrame envOneFace []).trace.indexOf Ev.resetReg <
        (processFrame envOneFace []).trace.indexOf Ev.localize := by
  have ht : (processFrame envOneFace []).trace =
      [Ev.localize, Ev.resetReg, Ev.put 0, Ev.encode] := by
    simp [processFrame, envOneFace, processFaces, cropSize, pySliceLen]
  rw [ht]
  refine ⟨by simp, by simp, ?_⟩
  decide

/-- C4 (amended): voice observations — every `predict_from_audio` result,
success or degraded — have confidence in [0, 1] whenever the posterior
row values are probabilities in [0, 1]; face observations stored in the
shared registry carry the external classifier's raw score, which is a
percentage (the code itself renders it with a `%` sign, line 116), so
under the classifier contract of scores in [0, 100] every stored face
confidence lies in [0, 100] — not in [0, 1]. -/
theorem C4_confidence_ranges :
    (∀ (env : FrameEnv) (reg : Registry),
      (∀ (j : Nat) (g : FaceData) (l : String) (c : ℚ),
        env.analyze j g = .ok (l, c) → 0 ≤ c ∧ c ≤ 100) →
      (∀ p ∈ reg, 0 ≤ p.2.confidence ∧ p.2.confidence ≤ 100) →
      ∀ p ∈ (processFrame env reg).registry,
        0 ≤ p.2.confidence ∧ p.2.confidence ≤ 100) ∧
    (∀ r : Except String ModelOut,
      (∀ out, r = .ok out → ∀ p ∈ out.probabilities, 0 ≤ p ∧ p ≤ 1) →
      0 ≤ (predict_from_audio r).confidence ∧ (predict_from_audio r).confidence ≤ 1) := by
  constructor
  · intro env reg hana hreg p hp
    cases hf : env.faces with
    | error e =>
      rw [processFrame, hf] at hp
      exact hreg p hp
    | ok fds =>
      rw [processFrame, hf] at hp
      exact processFaces_conf_bound env hana fds 0 [] (by intro q hq; simp at hq) p hp
  · intro r hprob
    have h1 : ((1 : ℤ) : ℚ) = (1 : ℚ) := by norm_num
    cases r with
    | error e => simp [predict_from_audio, degradedResult]
    | ok out =>
      cases hmax : npMax out.probabilities with
      | none => simp [predict_from_audio, hmax, degradedResult]
      | some m =>
        have hm := hprob out rfl m (npMax_mem out.probabilities m hmax)
        by_cases hlt : m < 15 / 100
        · have he : (predict_from_audio (.ok out)).confidence = roundTo 4 (15 / 100) := by
            simp [predict_from_audio, hmax, hlt]
          rw [he, (by norm_num [roundTo, round_eq] : roundTo 4 ((15 : ℚ) / 100) = 15 / 100)]
          norm_num
        · have he : (predict_from_audio (.ok out)).confidence = roundTo 4 m := by
            simp [predict_from_audio, hmax, hlt]
          rw [he]
          refine ⟨roundTo_nonneg 4 m hm.1, ?_⟩
          have := roundTo_le_intCast 4 m 1 (by rw [h1]; exact hm.2)
          rwa [h1] at this

/-- C4, witness: the two parts evaluated at a concrete frame and a
concrete degraded prediction. -/
theorem C4_confidence_ranges_witness :
    (∀ p ∈ (processFrame envOneFace []).registry,
      0 ≤ p.2.confidence ∧ p.2.confidence ≤ 100) ∧
    (0 ≤ (predict_from_audio (.error "model failure")).confidence ∧
      (predict_from_audio (.error "model failure")).confidence ≤ 1) := by
  constructor
  · exact C4_confidence_ranges.1 envOneFace []
      (by intro j g l c hc; simp [envOneFace] at hc; rw [← hc.2]; norm_num)
      (by intro p hp; simp at hp)
  · exact C4_confidence_ranges.2 (.error "model failure") (by intro out h; cases h)

/-- C4, counterexample to the claim as stated: a face whose classifier
reports the dominant emotion at 80 (an ordinary DeepFace percentage
score) is stored in the registry with confidence 80, which is not in
[0, 1]. -/
theorem C4_counterexample :
    ∃ o, List.lookup 0 (processFrame
        { frameH := 10, frameW := 10
          faces := .ok [{ x := 0, y := 0, w := 5, h := 5 }]
          analyze := fun _ _ => .ok ("happy", 80) } []).registry = some o ∧
      o.confidence = 80 ∧ ¬ o.confidence ≤ 1 := by
  refine ⟨{ emotion := "happy", confidence := 80, coords := (0, 0, 5, 5) }, ?_, rfl, by norm_num⟩
  have h80 : roundTo 2 (80 : ℚ) = 80 := by norm_num [roundTo, round_eq]
  simp [processFrame, processFaces, cropSize, pySliceLen, putReg, obsFor, List.lookup, h80]

/-- C5 (amended): when the detector failed to load (`get_detector()`
returns `None`), all three audio endpoints return the 500
"Audio detector not initialized" error and never reach feature extraction
or inference; however, work preceding the detector check still runs —
record mode records the full audio clip first, and file mode saves the
upload to a temp file and a debug copy first. -/
theorem C5_detector_unavailable (recorded : List ℚ) (sr : ℚ)
    (decoded : Except String (List ℚ × ℚ)) (audio : List ℚ) (hne : audio ≠ []) :
    ((record_audio none recorded sr).2 = errorOnly 500 "Audio detector not initialized" ∧
      AStep.infer ∉ (record_audio none recorded sr).1 ∧
      AStep.record ∈ (record_audio none recorded sr).1) ∧
    ((predict_audio_file none true false decoded).2 = errorOnly 500 "Audio detector not initialized" ∧
      AStep.infer ∉ (predict_audio_file none true false decoded).1 ∧
      AStep.saveTemp ∈ (predict_audio_file none true false decoded).1) ∧
    ((predict_audio_numpy none audio sr).2 = errorOnly 500 "Audio detector not initialized" ∧
      (predict_audio_numpy none audio sr).1 = []) := by
  have hlen : ¬ audio.length = 0 := by
    simpa [List.length_eq_zero] using hne
  refine ⟨⟨rfl, by simp [record_audio], by simp [record_audio]⟩,
    ⟨rfl, by simp [predict_audio_file], by simp [predict_audio_file]⟩, ?_, ?_⟩
  · simp [predict_audio_numpy, hlen]
  · simp [predict_audio_numpy, hlen]

/-- C5, witness: the endpoints evaluated on concrete requests with the
detector missing. -/
theorem C5_detector_unavailable_witness :
    ((record_audio none [0] 22050).2 = errorOnly 500 "Audio detector not initialized" ∧
      AStep.infer ∉ (record_audio none [0] 22050).1 ∧
      AStep.record ∈ (record_audio none [0] 22050).1) ∧
    ((predict_audio_file none true false (.ok ([0], 22050))).2 =
        errorOnly 500 "Audio detector not initialized" ∧
      AStep.infer ∉ (predict_audio_file none true false (.ok ([0], 22050))).1 ∧
      AStep.saveTemp ∈ (predict_audio_file none true false (.ok ([0], 22050))).1) ∧
    ((predict_audio_numpy none [0] 22050).2 = errorOnly 500 "Audio detector not initialized" ∧
      (predict_audio_numpy none [0] 22050).1 = []) :=
  C5_detector_unavailable [0] 22050 (.ok ([0], 22050)) [0] (by simp)

/-- C5, counterexample to the claim as stated: in record mode with the
detector missing, the microphone recording is performed before the error
is returned, so computation does happen before the 500 response. -/
theorem C5_counterexample :
    (record_audio none [0] 22050).2 = errorOnly 500 "Audio detector not initialized" ∧
    (record_audio none [0] 22050).1 = [AStep.record] ∧
    (record_audio none [0] 22050).1 ≠ [] := by
  exact ⟨rfl, rfl, by decide⟩

/-- C6 (confirmed): within one frame, an expression-classifier failure on
one crop records {label: "unknown", confidence: 0} for that region while
every other nonzero-area region is still recorded with its own result,
and the frame is still emitted; a localizer failure for the whole frame
is caught, the frame passing through unannotated (nothing drawn) and
still emitted, so the stream continues. -/
theorem C6_failure_containment :
    (∀ (env : FrameEnv) (reg : Registry) (fds : List FaceData) (j : Nat)
        (hj : j < fds.length) (msg : String),
      env.faces = .ok fds →
      cropSize env (fds.get ⟨j, hj⟩) ≠ 0 →
      env.analyze j (fds.get ⟨j, hj⟩) = .error msg →
      List.lookup j (processFrame env reg).registry = some
        { emotion := "unknown", confidence := 0
          coords := ((fds.get ⟨j, hj⟩).x, (fds.get ⟨j, hj⟩).y,
            (fds.get ⟨j, hj⟩).x + (fds.get ⟨j, hj⟩).w,
            (fds.get ⟨j, hj⟩).y + (fds.get ⟨j, hj⟩).h) } ∧
      (∀ (j' : Nat) (hj' : j' < fds.length), cropSize env (fds.get ⟨j', hj'⟩) ≠ 0 →
        List.lookup j' (processFrame env reg).registry =
          some (obsFor env j' (fds.get ⟨j', hj'⟩))) ∧
      (processFrame env reg).emitted = true) ∧
    (∀ (env : FrameEnv) (reg : Registry) (e : String), env.faces = .error e →
      (processFrame env reg).drawn = [] ∧ (processFrame env reg).emitted = true) := by
  constructor
  · intro env reg fds j hj msg hf hcrop hana
    have hlook : ∀ (j' : Nat) (hj' : j' < fds.length), cropSize env (fds.get ⟨j', hj'⟩) ≠ 0 →
        List.lookup j' (processFrame env reg).registry =
          some (obsFor env j' (fds.get ⟨j', hj'⟩)) := by
      intro j' hj' hc'
      have h := processFaces_lookup env fds 0 [] j' hj'
      rw [Nat.zero_add] at h
      rw [processFrame, hf]
      rw [h, if_neg hc']
    refine ⟨?_, hlook, by rw [processFrame, hf]⟩
    have h := hlook j hj hcrop
    rw [h]
    simp only [List.get_eq_getElem] at hana
    simp [obsFor, hana, roundTo_zero]
  · intro env reg e hf
    rw [processFrame, hf]
    exact ⟨rfl, rfl⟩

/-- C6, witness: a frame with two detections where the classifier raises
on the first crop only, and a frame whose localizer raises. -/
theorem C6_failure_containment_witness :
    (List.lookup 0 (processFrame envOneBadCrop []).registry = some
      { emotion := "unknown", confidence := 0, coords := (0, 0, 5, 5) } ∧
      (processFrame envOneBadCrop []).emitted = true) ∧
    ((processFrame envLocFail []).drawn = [] ∧ (processFrame envLocFail []).emitted = true) := by
  constructor
  · have h := C6_failure_containment.1 envOneBadCrop []
      [{ x := 0, y := 0, w := 5, h := 5 }, { x := 1, y := 1, w := 4, h := 4 }]
      0 (by norm_num) "DeepFace error" rfl
      (by norm_num [envOneBadCrop, cropSize, pySliceLen]) (by simp [envOneBadCrop])
    exact ⟨h.1, h.2.2⟩
  · exact C6_failure_containment.2 envLocFail [] "localizer failure" rfl

/-- C7 (amended): an exception raised by the model pipeline inside
`predict_from_audio` is caught and converted into the degraded
observation {emotion: "neutral", confidence: 0.0, probabilities: {},
error: message}, and a raw-array request hitting such a failure still
receives a parseable observation body with neutral label, 0.0 confidence
and the error message; however, request-validation failures and the
detector-unavailable condition return a body holding only an error
message, without label or confidence keys. -/
theorem C7_degraded_observation (e : String) :
    predict_from_audio (.error e) =
      { emotion := "neutral", confidence := 0, probabilities := some [], error := some e } ∧
    (∀ (d : Detector) (samples : List ℚ) (sr : ℚ), samples ≠ [] →
      d.run samples sr = .error e →
      (predict_audio_numpy (some d) samples sr).2 =
        { status := 200, emotion := some "neutral", confidence := some 0
          probabilities := some [], error := some e }) := by
  refine ⟨rfl, ?_⟩
  intro d samples sr hne hrun
  have hlen : ¬ samples.length = 0 := by
    simpa [List.length_eq_zero] using hne
  simp [predict_audio_numpy, hlen, predictFromAudioSamples, hne, hrun,
    resultToResponse, predict_from_audio, degradedResult]

/-- C7, witness: the degraded observation for a concrete failing
detector. -/
theorem C7_degraded_observation_witness :
    predict_from_audio (.error "model failure") =
      { emotion := "neutral", confidence := 0, probabilities := some []
        error := some "model failure" } ∧
    (predict_audio_numpy (some detFail) [0] 22050).2 =
      { status := 200, emotion := some "neutral", confidence := some 0
        probabilities := some [], error := some "model failure" } :=
  ⟨(C7_degraded_observation "model failure").1,
    (C7_degraded_observation "model failure").2 detFail [0] 22050 (by simp) rfl⟩

/-- C7, counterexample to the claim as stated: the raw-array endpoint's
"No audio data provided" failure body is user-visible yet contains only
the error message — no label and no confidence key. -/
theorem C7_counterexample :
    (predict_audio_numpy none [] 22050).2.error = some "No audio data provided" ∧
    (predict_audio_numpy none [] 22050).2.emotion = none ∧
    (predict_audio_numpy none [] 22050).2.confidence = none :=
  ⟨rfl, rfl, rfl⟩

/-- C8 (confirmed): a detection whose crop has zero size is skipped with
`continue` before any registry write, so the frame's registry has no
entry at that detection's index — not even an "unknown" one. -/
theorem C8_zero_area_skipped (env : FrameEnv) (reg : Registry) (fds : List FaceData)
    (j : Nat) (hj : j < fds.length) (hf : env.faces = .ok fds)
    (hcrop : cropSize env (fds.get ⟨j, hj⟩) = 0) :
    List.lookup j (processFrame env reg).registry = none := by
  have h := processFaces_lookup env fds 0 [] j hj
  rw [Nat.zero_add] at h
  rw [processFrame, hf]
  rw [h, if_pos hcrop]
  rfl

/-- C8, witness: a degenerate zero-width box (x2 = x1) produces no
registry entry. -/
theorem C8_zero_area_skipped_witness :
    List.lookup 0 (processFrame envZeroArea []).registry = none :=
  C8_zero_area_skipped envZeroArea []
    [{ x := 5, y := 5, w := 0, h := 3 }, { x := 1, y := 1, w := 4, h := 4 }]
    0 (by norm_num) rfl (by norm_num [envZeroArea, cropSize, pySliceLen])

/-- C9 (amended): an uploaded file whose decode yields the same
*non-empty* sample array and rate as a raw-array request produces the
identical response, both paths reducing to the same `predict_from_audio`
call; for an empty decoded array the paths differ, because the raw-array
endpoint rejects empty input with a 400 before calling the detector. -/
theorem C9_decode_path_equivalence (d : Detector) (samples : List ℚ) (sr : ℚ)
    (decoded : Except String (List ℚ × ℚ)) (hdec : decoded = .ok (samples, sr))
    (hne : samples ≠ []) :
    (predict_audio_file (some d) true false decoded).2 =
      (predict_audio_numpy (some d) samples sr).2 := by
  subst hdec
  have hlen : ¬ samples.length = 0 := by
    simpa [List.length_eq_zero] using hne
  simp [predict_audio_file, predict_audio_numpy, predict_from_file, hlen]

/-- C9, witness: both endpoints on the same one-sample decode. -/
theorem C9_decode_path_equivalence_witness :
    (predict_audio_file (some detFail) true false (.ok ([0], 22050))).2 =
      (predict_audio_numpy (some detFail) [0] 22050).2 :=
  C9_decode_path_equivalence detFail [0] 22050 (.ok ([0], 22050)) rfl (by simp)

/-- C9, counterexample to the claim as stated: a file decoding to the
empty array gets a 200 degraded observation, while the raw-array request
with the same (empty) array and rate gets a 400 validation error, so the
two paths do not return the same observation. -/
theorem C9_counterexample :
    (predict_audio_file (some detFail) true false (.ok ([], 22050))).2 ≠
      (predict_audio_numpy (some detFail) [] 22050).2 ∧
    (predict_audio_numpy (some detFail) [] 22050).2.status = 400 ∧
    (predict_audio_file (some detFail) true false (.ok ([], 22050))).2.status = 200 := by
  have h200 : (predict_audio_file (some detFail) true false (.ok ([], 22050))).2.status = 200 := rfl
  have h400 : (predict_audio_numpy (some detFail) [] 22050).2.status = 400 := rfl
  refine ⟨fun h => ?_, h400, h200⟩
  rw [h, h400] at h200
  exact absurd h200 (by norm_num)

/-- C10 (confirmed): when the localizer raises before the registry clear
is reached, the whole-frame handler catches the exception and the shared
registry is left exactly as the previous frame wrote it, so the
latest-emotions query keeps returning the prior entries; the frame is
still emitted. -/
theorem C10_registry_unchanged_on_early_failure (env : FrameEnv) (reg : Registry)
    (e : String) (hf : env.faces = .error e) :
    (processFrame env reg).registry = reg ∧
    get_emotions (processFrame env reg).registry = get_emotions reg ∧
    (processFrame env reg).emitted = true := by
  rw [processFrame, hf]
  exact ⟨rfl, rfl, rfl⟩

/-- C10, witness: a failing frame leaves a concrete previous registry
untouched. -/
theorem C10_registry_unchanged_on_early_failure_witness :
    (processFrame envLocFail
        [(0, { emotion := "sad", confidence := 75, coords := (1, 2, 3, 4) })]).registry =
      [(0, { emotion := "sad", confidence := 75, coords := (1, 2, 3, 4) })] :=
  (C10_registry_unchanged_on_early_failure envLocFail
    [(0, { emotion := "sad", confidence := 75, coords := (1, 2, 3, 4) })]
    "localizer failure" rfl).1
